import Mathlib

/-!
Shallow embedding of the libiio XML-backend metadata codec
(`src/xml.c`) together with the channels-mask bit operations of
`src/iio-private.h`, and theorems settling the specification claims
about them.

The external XML reader (libxml2) is abstracted, as the spec itself
prescribes, into a tree of nodes carrying a name, an ordered attribute
list (name/content string pairs) and ordered children.  The C standard
library functions used by the source (`sscanf`, `strtoll`, `strtol`,
`strtof`) are modelled directive-by-directive below.
-/

set_option autoImplicit false

namespace LibiioXml

/-- Error codes returned by the source (only the errno values it uses). -/
inductive Errno where
  | einval
  | enomem
  deriving DecidableEq

/-- Numeric errno constant `ENOENT` (used by `create_channel` as `-ENOENT`). -/
def ENOENT : Int := 2

/-- One attribute of a document node: a name and its text content. -/
structure XAttr where
  name : String
  content : String

/-- A node of the external document tree: element name, ordered
attributes, ordered children.  Text nodes appear as children whose name
is `"text"`, exactly as libxml2 presents them to `src/xml.c`. -/
inductive XNode where
  | mk (name : String) (attrs : List XAttr) (children : List XNode)

def XNode.name : XNode → String
  | .mk n _ _ => n

def XNode.attrs : XNode → List XAttr
  | .mk _ a _ => a

def XNode.children : XNode → List XNode
  | .mk _ _ c => c

/-- A C-style loop that may return an error code early: the shape of
every `for (n = ...; n; n = n->next) { ... return err; ... }` loop in
`src/xml.c`. -/
def foldE {σ α : Type} (step : σ → α → Except Errno σ) : σ → List α → Except Errno σ
  | s, [] => .ok s
  | s, a :: l =>
    match step s a with
    | .error e => .error e
    | .ok s' => foldE step s' l

@[simp] theorem foldE_nil {σ α : Type} (step : σ → α → Except Errno σ) (s : σ) :
    foldE step s [] = .ok s := rfl

@[simp] theorem foldE_cons {σ α : Type} (step : σ → α → Except Errno σ) (s : σ)
    (a : α) (l : List α) :
    foldE step s (a :: l) =
      match step s a with
      | .error e => .error e
      | .ok s' => foldE step s' l := rfl

/-! ## Models of the C library text-to-number conversions -/

/-- The whitespace characters skipped by `scanf`/`strtol` conversions. -/
def isCWs (c : Char) : Bool :=
  c = ' ' || c = '\t' || c = '\n' || c = '\x0b' || c = '\x0c' || c = '\r'

/-- Value of a decimal digit string. -/
def digitsVal (l : List Char) : Nat :=
  l.foldl (fun a c => a * 10 + (c.toNat - '0'.toNat)) 0

/-- Value of an octal digit string. -/
def octVal (l : List Char) : Nat :=
  l.foldl (fun a c => a * 8 + (c.toNat - '0'.toNat)) 0

/-- Value of a hexadecimal digit string. -/
def hexVal (l : List Char) : Nat :=
  l.foldl (fun a c =>
    a * 16 + (if c.isDigit then c.toNat - '0'.toNat
              else if 'a' ≤ c ∧ c ≤ 'f' then c.toNat - 'a'.toNat + 10
              else c.toNat - 'A'.toNat + 10)) 0

def isOctDigit (c : Char) : Bool := '0' ≤ c && c ≤ '7'

def isHexDigit (c : Char) : Bool :=
  c.isDigit || ('a' ≤ c && c ≤ 'f') || ('A' ≤ c && c ≤ 'F')

/-- Optional single sign character; returns (negative?, rest). -/
def scanSign : List Char → Bool × List Char
  | '+' :: r => (false, r)
  | '-' :: r => (true, r)
  | r => (false, r)

/-- Model of one `%c` directive of `sscanf`: consumes exactly one
character, no whitespace skipping. -/
def scanfChar : List Char → Option (Char × List Char)
  | [] => none
  | c :: r => some (c, r)

/-- Model of one ordinary-character directive of `sscanf`: the next
input character must equal the format character. -/
def scanfLit (c : Char) : List Char → Option (List Char)
  | [] => none
  | x :: r => if x = c then some r else none

/-- Model of one `%u` directive of `sscanf` (base-10 `strtoul`, then
truncation to `unsigned int`): skips whitespace, accepts an optional
sign, requires at least one decimal digit; a `-` sign wraps modulo
`2^64` before the truncation to 32 bits, and the magnitude saturates at
`ULONG_MAX` as `strtoul` does. -/
def scanfU (s : List Char) : Option (Nat × List Char) :=
  let s1 := s.dropWhile isCWs
  let (neg, s2) := scanSign s1
  let ds := s2.takeWhile Char.isDigit
  if ds.isEmpty then none
  else
    let m := min (digitsVal ds) (2 ^ 64 - 1)
    let u := if neg then (2 ^ 64 - m) % 2 ^ 64 else m
    some (u % 2 ^ 32, s2.drop ds.length)

/-- Model of `strtoll(content, &end, 0)`: whitespace, optional sign,
then a hexadecimal (`0x`), octal (leading `0`) or decimal digit string,
base chosen by the prefix.  Returns `none` exactly when no conversion
is performed (`end == content`); otherwise the exact mathematical value
(the caller separately compares against the `long long` range, which is
what the `errno == ERANGE` test in the source observes). -/
def strtoll0 (s : List Char) : Option Int :=
  let s1 := s.dropWhile isCWs
  let (neg, s2) := scanSign s1
  let mag : Option Nat :=
    match s2 with
    | '0' :: x :: r =>
      if (x = 'x' ∨ x = 'X') ∧ (r.takeWhile isHexDigit).isEmpty = false then
        some (hexVal (r.takeWhile isHexDigit))
      else
        some (octVal (('0' :: x :: r).takeWhile isOctDigit))
    | '0' :: [] => some 0
    | r =>
      let ds := r.takeWhile Char.isDigit
      if ds.isEmpty then none else some (digitsVal ds)
  match mag with
  | none => none
  | some m => some (if neg then -(m : Int) else (m : Int))

/-- Model of `strtol(content, &end, 10)` as used for the version
numbers: best-effort value, `0` when no digits, saturating at the
`long` range boundaries. -/
def strtol10 (s : List Char) : Int :=
  let s1 := s.dropWhile isCWs
  let (neg, s2) := scanSign s1
  let ds := s2.takeWhile Char.isDigit
  let v : Int := if neg then -(digitsVal ds : Int) else (digitsVal ds : Int)
  max (-(2 ^ 63)) (min (2 ^ 63 - 1) v)

/-- Largest finite single-precision magnitude, as a rational:
`FLT_MAX = (2^24 - 1) * 2^104 = 2^128 - 2^104`. -/
def FLT_MAX_Q : ℚ := mkRat ((2 ^ 128 - 2 ^ 104 : Nat) : Int) 1

/-- Model of `strtof(content, &end)` restricted to the decimal grammar
(optional whitespace and sign, digits with an optional fraction part,
optional decimal exponent; the hexadecimal/infinity/nan forms are not
exercised by this codec).  Returns `none` exactly when the source's
failure test `end == content || errno == ERANGE` would fire: when no
conversion is performed, or when the value overflows the single-float
range.  The numeric value is kept exact as a rational. -/
def strtofQ (s : List Char) : Option ℚ :=
  let s1 := s.dropWhile isCWs
  let (neg, s2) := scanSign s1
  let ip := s2.takeWhile Char.isDigit
  let s3 := s2.drop ip.length
  let (fp, s4) :=
    match s3 with
    | '.' :: r => (r.takeWhile Char.isDigit, r.drop (r.takeWhile Char.isDigit).length)
    | r => (([] : List Char), r)
  if ip.isEmpty ∧ fp.isEmpty then none
  else
    let ex : Int :=
      match s4 with
      | c :: r =>
        if c = 'e' ∨ c = 'E' then
          let (eneg, r2) := scanSign r
          let eds := r2.takeWhile Char.isDigit
          if eds.isEmpty then 0
          else if eneg then -(digitsVal eds : Int) else (digitsVal eds : Int)
        else 0
      | [] => 0
    let m : Nat := digitsVal (ip ++ fp)
    let d : Int := (fp.length : Int)
    let num : Int := if d ≤ ex then (m : Int) * ((10 ^ (ex - d).toNat : Nat) : Int) else (m : Int)
    let den : Nat := if d ≤ ex then 1 else 10 ^ (d - ex).toNat
    let q : ℚ := mkRat (if neg then -num else num) den
    if FLT_MAX_Q.blt (mkRat num den) then none else some q

/-! ## The data format and its decoder (`setup_scan_element`, format branch) -/

/-- `struct iio_data_format` (public header), as used by `src/xml.c`.
The `scale` double is modelled as an exact rational. -/
structure iio_data_format where
  length : Nat
  bits : Nat
  shift : Nat
  is_signed : Bool
  is_fully_defined : Bool
  is_be : Bool
  with_scale : Bool
  scale : ℚ
  rept : Nat
  deriving DecidableEq

/-- The all-zero format a `zalloc`ed channel starts with. -/
def zero_format : iio_data_format :=
  { length := 0, bits := 0, shift := 0, is_signed := false,
    is_fully_defined := false, is_be := false, with_scale := false,
    scale := 0, rept := 0 }

/-- Model of `iio_sscanf(content, "%ce:%c%u/%u>>%u", ...)`: the five
directives in order; `none` when any directive fails (so that the
source's `err != 5` test fires).  Input after the final `%u` is ignored,
as `sscanf` ignores it. -/
def scanf_fmt5 (s : List Char) : Option (Char × Char × Nat × Nat × Nat) := do
  let (e, s1) ← scanfChar s
  let s2 ← scanfLit 'e' s1
  let s3 ← scanfLit ':' s2
  let (sg, s4) ← scanfChar s3
  let (bits, s5) ← scanfU s4
  let s6 ← scanfLit '/' s5
  let (len, s7) ← scanfU s6
  let s8 ← scanfLit '>' s7
  let s9 ← scanfLit '>' s8
  let (shift, _) ← scanfU s9
  pure (e, sg, bits, len, shift)

/-- Model of `iio_sscanf(content, "%ce:%c%u/%uX%u>>%u", ...)`: the six
directives in order; `none` when any directive fails (`err != 6`). -/
def scanf_fmt6 (s : List Char) : Option (Char × Char × Nat × Nat × Nat × Nat) := do
  let (e, s1) ← scanfChar s
  let s2 ← scanfLit 'e' s1
  let s3 ← scanfLit ':' s2
  let (sg, s4) ← scanfChar s3
  let (bits, s5) ← scanfU s4
  let s6 ← scanfLit '/' s5
  let (len, s7) ← scanfU s6
  let s8 ← scanfLit 'X' s7
  let (rept, s9) ← scanfU s8
  let s10 ← scanfLit '>' s9
  let s11 ← scanfLit '>' s10
  let (shift, _) ← scanfU s11
  pure (e, sg, bits, len, rept, shift)

/-- The `format` branch of `setup_scan_element` (src/xml.c:120-154):
repeat-clause shape chosen by `strchr(content, 'X')`; on a full match
the format fields are assigned and the derived flags computed; on a
partial match the function returns `-EINVAL` (the caller then frees the
whole channel, so the partially-assigned fields are never observed). -/
def scan_format_step (fmt : iio_data_format) (content : String) :
    Except Errno iio_data_format :=
  if content.toList.contains 'X' then
    match scanf_fmt6 content.toList with
    | none => .error .einval
    | some (e, sg, bits, len, rept, shift) =>
      .ok { fmt with
             bits := bits, length := len, rept := rept, shift := shift,
             is_be := e = 'b',
             is_signed := sg = 's' ∨ sg = 'S',
             is_fully_defined := sg = 'S' ∨ sg = 'U' ∨ bits = len }
  else
    match scanf_fmt5 content.toList with
    | none => .error .einval
    | some (e, sg, bits, len, shift) =>
      .ok { fmt with
             bits := bits, length := len, rept := 1, shift := shift,
             is_be := e = 'b',
             is_signed := sg = 's' ∨ sg = 'S',
             is_fully_defined := sg = 'S' ∨ sg = 'U' ∨ bits = len }

/-- The `scale` branch of `setup_scan_element` (src/xml.c:155-167):
returns the updated format together with the error, because the source
both mutates `chn->format.with_scale` and returns `-EINVAL` on a failed
parse. -/
def scan_scale_step (fmt : iio_data_format) (content : String) :
    iio_data_format × Option Errno :=
  match strtofQ content.toList with
  | none => ({ fmt with with_scale := false }, some .einval)
  | some v => ({ fmt with with_scale := true, scale := v }, none)

/-! ## Channels, devices, context: the model entities -/

/-- `struct iio_channel_attr`. -/
structure iio_channel_attr where
  name : String
  filename : String
  deriving DecidableEq

/-- `struct iio_channel`, restricted to the fields `src/xml.c` touches. -/
structure iio_channel where
  is_output : Bool
  is_scan_element : Bool
  format : iio_data_format
  name : Option String
  id : Option String
  index : Int
  attrs : List iio_channel_attr
  deriving DecidableEq

/-- The channel as `zalloc` leaves it, before `create_channel` runs. -/
def zalloc_channel : iio_channel :=
  { is_output := false, is_scan_element := false, format := zero_format,
    name := none, id := none, index := 0, attrs := [] }

/-- `struct iio_device`, restricted to the fields `src/xml.c` touches.
The three attribute registries are the ordered name lists of
`struct iio_dev_attrs`. -/
structure iio_device where
  name : Option String
  label : Option String
  id : Option String
  attrs : List String
  buffer_attrs : List String
  debug_attrs : List String
  channels : List iio_channel
  deriving DecidableEq

def zalloc_device : iio_device :=
  { name := none, label := none, id := none, attrs := [],
    buffer_attrs := [], debug_attrs := [], channels := [] }

/-- `struct iio_context`, restricted to the fields `src/xml.c` touches. -/
structure iio_context where
  description : Option String
  major : Nat
  minor : Nat
  git_tag : Option String
  attrs : List (String × String)
  devices : List iio_device
  deriving DecidableEq

/-- The `enum iio_attr_type` selector of `add_attr_to_device`. -/
inductive AttrType where
  | device
  | debug
  | buffer
  deriving DecidableEq

/-! ## The builders of `src/xml.c` -/

/-- Modelled from the spec: `add_iio_dev_attr` (declared in
`src/iio-private.h` but defined outside `src/`) performs the Attribute
Registry insertion of §4.3 — an idempotent append that rejects an
already-present name as a no-op success and otherwise preserves
insertion order.  The namespace-suffix argument of the C function only
disambiguates downstream storage keys and diagnostics, so it does not
appear in this model of the name list. -/
def add_iio_dev_attr (names : List String) (name : String) : List String :=
  if name ∈ names then names else names ++ [name]

/-- Attribute loop of `add_attr_to_channel` (src/xml.c:29-42): collects
the last `name` and `filename` contents, ignoring unknown attributes. -/
def chn_attr_pair_step (p : Option String × Option String) (a : XAttr) :
    Option String × Option String :=
  if a.name = "name" then (some a.content, p.2)
  else if a.name = "filename" then (p.1, some a.content)
  else p

/-- `add_attr_to_channel` (src/xml.c:22-70): missing `name` is
`-EINVAL`; a missing `filename` defaults to a copy of `name`; on
success the (filename, name) pair is appended to the channel's
attribute array. -/
def add_attr_to_channel (chn : iio_channel) (n : XNode) : Except Errno iio_channel :=
  match n.attrs.foldl chn_attr_pair_step (none, none) with
  | (none, _) => .error .einval
  | (some nm, fn) =>
    .ok { chn with attrs := chn.attrs ++ [{ name := nm, filename := fn.getD nm }] }

/-- Attribute loop of `add_attr_to_device` (src/xml.c:77-84). -/
def dev_attr_name_step (p : Option String) (a : XAttr) : Option String :=
  if a.name = "name" then some a.content else p

/-- `add_attr_to_device` (src/xml.c:72-101): missing `name` is
`-EINVAL`; otherwise the name is inserted into the registry selected by
the attribute type. -/
def add_attr_to_device (dev : iio_device) (n : XNode) (ty : AttrType) :
    Except Errno iio_device :=
  match n.attrs.foldl dev_attr_name_step none with
  | none => .error .einval
  | some nm =>
    match ty with
    | .debug => .ok { dev with debug_attrs := add_iio_dev_attr dev.debug_attrs nm }
    | .device => .ok { dev with attrs := add_iio_dev_attr dev.attrs nm }
    | .buffer => .ok { dev with buffer_attrs := add_iio_dev_attr dev.buffer_attrs nm }

/-- Per-attribute body of `setup_scan_element` (src/xml.c:108-172):
`index` parsed by `strtoll` base 0, rejecting no-conversion, negative
and out-of-`long long`-range values; `format` and `scale` delegate to
the codec steps; unknown attributes are only logged. -/
def scan_elem_attr_step (chn : iio_channel) (a : XAttr) : Except Errno iio_channel :=
  if a.name = "index" then
    match strtoll0 a.content.toList with
    | none => .error .einval
    | some v =>
      if v < 0 ∨ 2 ^ 63 - 1 < v then .error .einval
      else .ok { chn with index := v }
  else if a.name = "format" then
    match scan_format_step chn.format a.content with
    | .error e => .error e
    | .ok f => .ok { chn with format := f }
  else if a.name = "scale" then
    match scan_scale_step chn.format a.content with
    | (_, some e) => .error e
    | (f, none) => .ok { chn with format := f }
  else .ok chn

/-- `setup_scan_element` (src/xml.c:103-175). -/
def setup_scan_element (chn : iio_channel) (n : XNode) : Except Errno iio_channel :=
  foldE scan_elem_attr_step chn n.attrs

/-- Attribute loop of `create_channel` (src/xml.c:192-212): `name`,
`id`, `type` (`"output"` sets the direction; anything else leaves the
`zalloc` default input direction); unknown attributes only logged. -/
def chn_node_attr_step (chn : iio_channel) (a : XAttr) : iio_channel :=
  if a.name = "name" then { chn with name := some a.content }
  else if a.name = "id" then { chn with id := some a.content }
  else if a.name = "type" then
    if a.content = "output" then { chn with is_output := true } else chn
  else chn

/-- Modelled from the spec: `iio_channel_init_finalize` (declared in
`src/iio-private.h`, defined outside `src/`) is part of the
finalization hook of §4.4 step 7, deriving presentation data (channel
type/modifier) from the already-parsed id; it changes none of the
fields modelled here, so on this model it is the identity. -/
def iio_channel_init_finalize (chn : iio_channel) : iio_channel := chn

/-- Child loop of `create_channel` (src/xml.c:220-235). -/
def chn_child_step (chn : iio_channel) (n : XNode) : Except Errno iio_channel :=
  if n.name = "attribute" then add_attr_to_channel chn n
  else if n.name = "scan-element" then
    setup_scan_element { chn with is_scan_element := true } n
  else .ok chn

/-- `create_channel` (src/xml.c:177-244): `zalloc`, default index
`-ENOENT` ("no index"), attribute loop, required-`id` check, child
loop, finalize. -/
def create_channel (n : XNode) : Except Errno iio_channel :=
  let chn0 := { zalloc_channel with index := -ENOENT }
  let chn1 := n.attrs.foldl chn_node_attr_step chn0
  match chn1.id with
  | none => .error .einval
  | some _ =>
    match foldE chn_child_step chn1 n.children with
    | .error e => .error e
    | .ok chn2 => .ok (iio_channel_init_finalize chn2)

/-- Attribute loop of `create_device` (src/xml.c:258-276). -/
def dev_node_attr_step (dev : iio_device) (a : XAttr) : iio_device :=
  if a.name = "name" then { dev with name := some a.content }
  else if a.name = "label" then { dev with label := some a.content }
  else if a.name = "id" then { dev with id := some a.content }
  else dev

/-- Child loop of `create_device` (src/xml.c:284-322). -/
def dev_child_step (dev : iio_device) (n : XNode) : Except Errno iio_device :=
  if n.name = "channel" then
    match create_channel n with
    | .error e => .error e
    | .ok chn => .ok { dev with channels := dev.channels ++ [chn] }
  else if n.name = "attribute" then add_attr_to_device dev n .device
  else if n.name = "debug-attribute" then add_attr_to_device dev n .debug
  else if n.name = "buffer-attribute" then add_attr_to_device dev n .buffer
  else .ok dev

/-- `create_device` (src/xml.c:246-330): `zalloc`, attribute loop,
required-`id` check, child loop. -/
def create_device (n : XNode) : Except Errno iio_device :=
  let dev := n.attrs.foldl dev_node_attr_step zalloc_device
  match dev.id with
  | none => .error .einval
  | some _ => foldE dev_child_step dev n.children

/-! ## Context assembly (`src/xml.c:349-472`) -/

/-- Modelled from the spec: `iio_context_add_attr` (declared in
`src/iio-private.h`, defined outside `src/`) inserts a context-level
(key, value) pair per §4.4 step 4 — a duplicate key is rejected so the
first occurrence wins, otherwise insertion order is preserved. -/
def iio_context_add_attr (ctx : iio_context) (key value : String) : iio_context :=
  if key ∈ ctx.attrs.map Prod.fst then ctx
  else { ctx with attrs := ctx.attrs ++ [(key, value)] }

/-- Attribute loop of `parse_context_attr` (src/xml.c:354-360). -/
def ctx_attr_pair_step (p : Option String × Option String) (a : XAttr) :
    Option String × Option String :=
  if a.name = "name" then (some a.content, p.2)
  else if a.name = "value" then (p.1, some a.content)
  else p

/-- `parse_context_attr` (src/xml.c:349-366): both `name` and `value`
required, else `-EINVAL`. -/
def parse_context_attr (ctx : iio_context) (n : XNode) : Except Errno iio_context :=
  match n.attrs.foldl ctx_attr_pair_step (none, none) with
  | (some nm, some v) => .ok (iio_context_add_attr ctx nm v)
  | _ => .error .einval

/-- Modelled from the spec: `iio_context_add_device` (declared in
`src/iio-private.h`, defined outside `src/`) appends the built device
to the context's owned device list (§4.4 step 4). -/
def iio_context_add_device (ctx : iio_context) (dev : iio_device) : iio_context :=
  { ctx with devices := ctx.devices ++ [dev] }

/-- Modelled from the spec: `iio_context_init` (declared in
`src/iio-private.h`, defined outside `src/`) is the finalization hook
of §4.4 step 7, wiring channel numbering and mask sizing; it changes
none of the fields modelled here and succeeds on an in-memory model. -/
def iio_context_init_ok (ctx : iio_context) : Except Errno iio_context := .ok ctx

/-- Child loop body of `iio_populate_xml_context_helper`
(src/xml.c:373-401). -/
def ctx_child_step (ctx : iio_context) (n : XNode) : Except Errno iio_context :=
  if n.name = "context-attribute" then parse_context_attr ctx n
  else if n.name = "device" then
    match create_device n with
    | .error e => .error e
    | .ok dev => .ok (iio_context_add_device ctx dev)
  else .ok ctx

/-- `iio_populate_xml_context_helper` (src/xml.c:368-404). -/
def iio_populate_xml_context_helper (ctx : iio_context) (root : XNode) :
    Except Errno iio_context :=
  match foldE ctx_child_step ctx root.children with
  | .error e => .error e
  | .ok ctx' => iio_context_init_ok ctx'

/-- The root-attribute scan state of `iio_create_xml_context_helper`:
the local variables `description`, `major`, `minor`, `git_tag`. -/
structure CtxHdr where
  description : Option String
  major : Int
  minor : Int
  git_tag : Option String

/-- Root-attribute loop of `iio_create_xml_context_helper`
(src/xml.c:424-443): version numbers parsed best-effort with `strtol`
(trailing garbage only warns, the value is kept), `name` and unknown
attributes ignored. -/
def ctx_hdr_step (s : CtxHdr) (a : XAttr) : CtxHdr :=
  if a.name = "description" then { s with description := some a.content }
  else if a.name = "version-major" then { s with major := strtol10 a.content.toList }
  else if a.name = "version-minor" then { s with minor := strtol10 a.content.toList }
  else if a.name = "version-git" then { s with git_tag := some a.content }
  else s

/-- `iio_create_xml_context_helper` (src/xml.c:406-472): reject a root
that is not `<context>`, scan the root attributes, create the backend
context (zero-initialized but for the description), record the version
numbers only under `if (git_tag)`, then populate. -/
def iio_create_xml_context_helper (root : XNode) : Except Errno iio_context :=
  if root.name = "context" then
    let hdr := root.attrs.foldl ctx_hdr_step
      { description := none, major := 0, minor := 0, git_tag := none }
    let ctx0 : iio_context :=
      { description := hdr.description, major := 0, minor := 0,
        git_tag := none, attrs := [], devices := [] }
    let ctx1 :=
      match hdr.git_tag with
      | some g =>
        { ctx0 with major := (hdr.major % 2 ^ 32).toNat,
                    minor := (hdr.minor % 2 ^ 32).toNat, git_tag := some g }
      | none => ctx0
    iio_populate_xml_context_helper ctx1 root
  else .error .einval

/-! ## The channels mask (`src/iio-private.h:36-38, 158-185`) -/

/-- `BIT_MASK(bit)`: `1 << (bit % 32)` on a 32-bit word. -/
def BIT_MASK (bit : Nat) : Nat := 2 ^ (bit % 32)

/-- `BIT_WORD(bit)`. -/
def BIT_WORD (bit : Nat) : Nat := bit / 32

/-- `struct iio_channels_mask`: a word count and the packed 32-bit
words (each stored as a `Nat` kept below `2^32` by the operations). -/
structure iio_channels_mask where
  words : Nat
  mask : List Nat
  deriving DecidableEq

/-- Modelled from the spec: `iio_create_channels_mask` (declared in
`src/iio-private.h`, defined outside `src/`) allocates a
zero-initialized mask with `ceil(nb_channels / 32)` words (§4.2: enough
words for at least `nb_channels` bits). -/
def iio_create_channels_mask (nb_channels : Nat) : iio_channels_mask :=
  { words := (nb_channels + 31) / 32,
    mask := List.replicate ((nb_channels + 31) / 32) 0 }

/-- `iio_channels_mask_test_bit` (src/iio-private.h:168-173). -/
def iio_channels_mask_test_bit (m : iio_channels_mask) (bit : Nat) : Bool :=
  (m.mask.getD (BIT_WORD bit) 0) &&& BIT_MASK bit != 0

/-- `iio_channels_mask_set_bit` (src/iio-private.h:175-179). -/
def iio_channels_mask_set_bit (m : iio_channels_mask) (bit : Nat) : iio_channels_mask :=
  { m with mask :=
      m.mask.set (BIT_WORD bit) ((m.mask.getD (BIT_WORD bit) 0) ||| BIT_MASK bit) }

/-- `iio_channels_mask_clear_bit` (src/iio-private.h:181-185): the
complement `~BIT_MASK(bit)` on a 32-bit word is `(2^32 - 1) ^^^
BIT_MASK(bit)`. -/
def iio_channels_mask_clear_bit (m : iio_channels_mask) (bit : Nat) : iio_channels_mask :=
  { m with mask :=
      (m.mask.set (BIT_WORD bit)
        ((m.mask.getD (BIT_WORD bit) 0) &&& ((2 ^ 32 - 1) ^^^ BIT_MASK bit))) }

/-! ## Theorems settling the claims -/

/-- Claim C1: decoding `"be:s16/16>>0"` (no repeat clause) yields
exactly the big-endian signed 16/16 fully-defined format with repeat 1
and shift 0, and decoding `"le:u12/16X4>>2"` (repeat clause) yields
exactly the little-endian unsigned 12/16 format with repeat 4 and
shift 2; repeat defaults to 1 when the clause is absent. -/
theorem c1_format_decode_examples :
    scan_format_step zero_format "be:s16/16>>0" =
      .ok { length := 16, bits := 16, shift := 0, is_signed := true,
            is_fully_defined := true, is_be := true, with_scale := false,
            scale := 0, rept := 1 } ∧
    scan_format_step zero_format "le:u12/16X4>>2" =
      .ok { length := 16, bits := 12, shift := 2, is_signed := false,
            is_fully_defined := false, is_be := false, with_scale := false,
            scale := 0, rept := 4 } :=
  ⟨rfl, rfl⟩

/-- Claim C2, counterexample: the claim says trailing garbage after the
shift fails with a Malformed error, but `sscanf` ignores input after
its last directive, so `"be:s16/16>>0abc"` decodes successfully. -/
theorem c2_trailing_garbage_accepted :
    scan_format_step zero_format "be:s16/16>>0abc" =
      .ok { length := 16, bits := 16, shift := 0, is_signed := true,
            is_fully_defined := true, is_be := true, with_scale := false,
            scale := 0, rept := 1 } :=
  rfl

/-- Claim C2, amended: decoding matches one of exactly two `sscanf`
shapes chosen by the literal presence of `'X'`; wrong arity and
non-numeric fields fail with a Malformed error, and every outcome is
either a fully decoded format or that error (never a partial success) —
but characters after the final shift field are ignored, not rejected. -/
theorem c2_strict_decode_amended :
    scan_format_step zero_format "garbage" = .error .einval ∧
    scan_format_step zero_format "be:s16/16" = .error .einval ∧
    scan_format_step zero_format "be:sqq/16>>0" = .error .einval ∧
    ∀ (fmt : iio_data_format) (content : String),
      (∃ f, scan_format_step fmt content = .ok f) ∨
        scan_format_step fmt content = .error .einval := by
  refine ⟨rfl, rfl, rfl, ?_⟩
  intro fmt content
  unfold scan_format_step
  by_cases hx : content.toList.contains 'X'
  · simp only [hx, if_true]
    cases h6 : scanf_fmt6 content.toList with
    | none => exact Or.inr rfl
    | some t =>
      obtain ⟨e, sg, bits, len, rept, shift⟩ := t
      exact Or.inl ⟨_, rfl⟩
  · simp only [hx, if_false, Bool.false_eq_true]
    cases h5 : scanf_fmt5 content.toList with
    | none => exact Or.inr rfl
    | some t =>
      obtain ⟨e, sg, bits, len, shift⟩ := t
      exact Or.inl ⟨_, rfl⟩

/-- Claim C4, counterexample: `create_channel` initializes the index
sentinel to `-ENOENT` (= `-2`), not `-1`: a channel with no scan
element is built with index `-2`. -/
theorem c4_default_index_counterexample :
    create_channel (XNode.mk "channel" [⟨"id", "ch0"⟩] []) =
      .ok { zalloc_channel with id := some "ch0", index := -2 } ∧
    (-2 : Int) ≠ -1 :=
  ⟨rfl, by decide⟩

/-- Claim C5, counterexample: the claim says any unparsed trailing
character fails the scale decode, but the source only tests
`end == content` and `ERANGE`, so `"1.5x"` is accepted with the parsed
prefix value and `with_scale` set. -/
theorem c5_trailing_scale_accepted :
    scan_scale_step zero_format "1.5x" =
      ({ zero_format with with_scale := true, scale := mkRat 3 2 }, none) := by
  decide

/-- Claim C5, amended: the scale decode fails exactly when no initial
portion of the text converts or the value is out of the single-float
range; on failure it both clears `with_scale` and reports the error; on
success it sets `with_scale` and stores the parsed value — but
characters after a successfully parsed prefix are accepted. -/
theorem c5_scale_flag_amended (fmt : iio_data_format) (content : String) :
    ((scan_scale_step fmt content).2 = some .einval ↔
        strtofQ content.toList = none) ∧
    ((scan_scale_step fmt content).2 = some .einval →
      (scan_scale_step fmt content).1.with_scale = false) ∧
    (∀ v, strtofQ content.toList = some v →
      (scan_scale_step fmt content).2 = none ∧
      (scan_scale_step fmt content).1.with_scale = true ∧
      (scan_scale_step fmt content).1.scale = v) := by
  cases h : strtofQ content.toList <;>
    simp only [scan_scale_step, h] <;> simp

/-- Witness for C5's amended theorem at concrete inputs: an unparsable
scale clears the flag, a parsable one sets it. -/
theorem c5_scale_flag_amended_witness :
    (scan_scale_step zero_format "x").1.with_scale = false ∧
    (scan_scale_step zero_format "2.5").1.with_scale = true :=
  ⟨(c5_scale_flag_amended zero_format "x").2.1 (by decide),
   ((c5_scale_flag_amended zero_format "2.5").2.2 (mkRat 5 2) (by decide)).2.1⟩

/-- Claim C6: a document whose root element is not `<context>` is
rejected with `-EINVAL` before any context is constructed. -/
theorem c6_bad_root_rejected (root : XNode) (h : root.name ≠ "context") :
    iio_create_xml_context_helper root = .error .einval := by
  unfold iio_create_xml_context_helper
  rw [if_neg h]

/-- Witness for C6 at a concrete document. -/
theorem c6_bad_root_rejected_witness :
    iio_create_xml_context_helper (XNode.mk "nope" [] []) = .error .einval :=
  c6_bad_root_rejected (XNode.mk "nope" [] []) (by decide)

/-! Index-preservation lemmas for the channel builder. -/

theorem chn_node_attr_step_index (c : iio_channel) (a : XAttr) :
    (chn_node_attr_step c a).index = c.index := by
  unfold chn_node_attr_step
  split_ifs <;> rfl

theorem foldl_chn_node_attr_index (l : List XAttr) :
    ∀ c : iio_channel, (l.foldl chn_node_attr_step c).index = c.index := by
  induction l with
  | nil => intro c; rfl
  | cons a l ih =>
    intro c
    rw [List.foldl_cons, ih, chn_node_attr_step_index]

theorem add_attr_to_channel_index {chn : iio_channel} {n : XNode} {c' : iio_channel}
    (h : add_attr_to_channel chn n = .ok c') : c'.index = chn.index := by
  unfold add_attr_to_channel at h
  rcases hp : n.attrs.foldl chn_attr_pair_step (none, none) with ⟨nm, fn⟩
  rw [hp] at h
  cases nm with
  | none => cases h
  | some v => cases h; rfl

theorem scan_elem_attr_step_index {c : iio_channel} {a : XAttr} {c' : iio_channel}
    (ha : a.name ≠ "index") (h : scan_elem_attr_step c a = .ok c') :
    c'.index = c.index := by
  unfold scan_elem_attr_step at h
  rw [if_neg ha] at h
  by_cases hf : a.name = "format"
  · rw [if_pos hf] at h
    cases hsf : scan_format_step c.format a.content with
    | error e => rw [hsf] at h; cases h
    | ok f => rw [hsf] at h; cases h; rfl
  · rw [if_neg hf] at h
    by_cases hs : a.name = "scale"
    · rw [if_pos hs] at h
      rcases hss : scan_scale_step c.format a.content with ⟨f, e?⟩
      rw [hss] at h
      cases e? with
      | some e => cases h
      | none => cases h; rfl
    · rw [if_neg hs] at h; cases h; rfl

theorem setup_scan_element_attrs_index (l : List XAttr) :
    ∀ c c' : iio_channel, (∀ a ∈ l, a.name ≠ "index") →
      foldE scan_elem_attr_step c l = .ok c' → c'.index = c.index := by
  induction l with
  | nil => intro c c' _ h; cases h; rfl
  | cons a l ih =>
    intro c c' ha h
    rw [foldE_cons] at h
    cases hs : scan_elem_attr_step c a with
    | error e => rw [hs] at h; cases h
    | ok c1 =>
      rw [hs] at h
      have h1 : c1.index = c.index :=
        scan_elem_attr_step_index (ha a (by simp)) hs
      have h2 := ih c1 c' (fun x hx => ha x (by simp [hx])) h
      rw [h2, h1]

theorem chn_child_step_index {c c' : iio_channel} {n : XNode}
    (hn : n.name = "scan-element" → ∀ a ∈ n.attrs, a.name ≠ "index")
    (h : chn_child_step c n = .ok c') : c'.index = c.index := by
  unfold chn_child_step at h
  by_cases h1 : n.name = "attribute"
  · rw [if_pos h1] at h
    exact add_attr_to_channel_index h
  · rw [if_neg h1] at h
    by_cases h2 : n.name = "scan-element"
    · rw [if_pos h2] at h
      unfold setup_scan_element at h
      exact setup_scan_element_attrs_index n.attrs
        { c with is_scan_element := true } c' (hn h2) h
    · rw [if_neg h2] at h; cases h; rfl

theorem chn_children_index (l : List XNode) :
    ∀ c c' : iio_channel,
      (∀ n ∈ l, n.name = "scan-element" → ∀ a ∈ n.attrs, a.name ≠ "index") →
      foldE chn_child_step c l = .ok c' → c'.index = c.index := by
  induction l with
  | nil => intro c c' _ h; cases h; rfl
  | cons x l ih =>
    intro c c' hl h
    rw [foldE_cons] at h
    cases hs : chn_child_step c x with
    | error e => rw [hs] at h; cases h
    | ok c1 =>
      rw [hs] at h
      have h1 : c1.index = c.index := chn_child_step_index (hl x (by simp)) hs
      have h2 := ih c1 c' (fun y hy => hl y (by simp [hy])) h
      rw [h2, h1]

/-- Claim C4, amended: `create_channel` initializes the index to the
sentinel `-ENOENT` (that is `-2`, a negative "no index" value, not
`-1`), and every channel whose scan-elements carry no `index` attribute
(in particular a channel with no scan-element at all) is built with
index `-ENOENT = -2`. -/
theorem c4_default_index_amended (n : XNode) (c : iio_channel)
    (hscan : ∀ ch ∈ n.children, ch.name = "scan-element" →
      ∀ a ∈ ch.attrs, a.name ≠ "index")
    (hok : create_channel n = .ok c) :
    c.index = -ENOENT ∧ c.index = -2 ∧ c.index < 0 := by
  simp only [create_channel] at hok
  split at hok
  · cases hok
  · split at hok
    · cases hok
    · cases hok
      rename_i chn2 hf
      have h1 := chn_children_index n.children _ _ hscan hf
      rw [foldl_chn_node_attr_index] at h1
      have h2 : (iio_channel_init_finalize chn2).index = -ENOENT := h1.trans rfl
      exact ⟨h2, h2.trans (by decide), by rw [h2]; decide⟩

/-- A sample channel node: id `ch0`, one scan-element carrying only a
format attribute (no index). -/
def sample_scan_channel_node : XNode :=
  XNode.mk "channel" [⟨"id", "ch0"⟩]
    [XNode.mk "scan-element" [⟨"format", "be:s16/16>>0"⟩] []]

/-- The channel the sample node builds to. -/
def sample_scan_channel : iio_channel :=
  { is_output := false, is_scan_element := true,
    format := { length := 16, bits := 16, shift := 0, is_signed := true,
                is_fully_defined := true, is_be := true, with_scale := false,
                scale := 0, rept := 1 },
    name := none, id := some "ch0", index := -2, attrs := [] }

/-- Witness for C4's amended theorem: a channel with a scan-element
that has a format but no index attribute is built with index `-2`. -/
theorem c4_default_index_amended_witness :
    sample_scan_channel.index = -ENOENT ∧ sample_scan_channel.index = -2 :=
  have h := c4_default_index_amended sample_scan_channel_node sample_scan_channel
    (by decide) rfl
  ⟨h.1, h.2.1⟩

/-! Lemmas for the missing-device-id abort. -/

theorem dev_node_attr_step_id (d : iio_device) (a : XAttr) (h : a.name ≠ "id") :
    (dev_node_attr_step d a).id = d.id := by
  unfold dev_node_attr_step
  by_cases h1 : a.name = "name"
  · rw [if_pos h1]
  · rw [if_neg h1]
    by_cases h2 : a.name = "label"
    · rw [if_pos h2]
    · rw [if_neg h2, if_neg h]

theorem foldl_dev_attr_id (l : List XAttr) (h : ∀ a ∈ l, a.name ≠ "id") :
    ∀ d : iio_device, (l.foldl dev_node_attr_step d).id = d.id := by
  induction l with
  | nil => intro d; rfl
  | cons a l ih =>
    intro d
    rw [List.foldl_cons, ih (fun x hx => h x (by simp [hx])),
      dev_node_attr_step_id d a (h a (by simp))]

theorem create_device_no_id (n : XNode) (h : ∀ a ∈ n.attrs, a.name ≠ "id") :
    create_device n = .error .einval := by
  have hid : (n.attrs.foldl dev_node_attr_step zalloc_device).id = none :=
    foldl_dev_attr_id n.attrs h zalloc_device
  simp only [create_device]
  rw [hid]

theorem populate_children_bad_device (l : List XNode) :
    ∀ ctx : iio_context,
      (∃ n ∈ l, n.name = "device" ∧ ∀ a ∈ n.attrs, a.name ≠ "id") →
      ∃ e, foldE ctx_child_step ctx l = .error e := by
  induction l with
  | nil =>
    rintro ctx ⟨n, hn, -⟩
    exact absurd hn (List.not_mem_nil n)
  | cons x l ih =>
    rintro ctx ⟨n, hn, hdev, hid⟩
    rw [foldE_cons]
    rcases List.mem_cons.mp hn with rfl | hmem
    · have hstep : ctx_child_step ctx n = .error .einval := by
        unfold ctx_child_step
        rw [if_neg (by rw [hdev]; decide), if_pos hdev, create_device_no_id n hid]
      rw [hstep]
      exact ⟨.einval, rfl⟩
    · cases hs : ctx_child_step ctx x with
      | error e => exact ⟨e, rfl⟩
      | ok ctx1 => exact ih ctx1 ⟨n, hmem, hdev, hid⟩

theorem populate_bad_device (ctx : iio_context) (root : XNode)
    (h : ∃ n ∈ root.children, n.name = "device" ∧ ∀ a ∈ n.attrs, a.name ≠ "id") :
    ∃ e, iio_populate_xml_context_helper ctx root = .error e := by
  obtain ⟨e, he⟩ := populate_children_bad_device root.children ctx h
  refine ⟨e, ?_⟩
  unfold iio_populate_xml_context_helper
  rw [he]

/-- Claim C3: a document containing a `device` element without the
required `id` attribute fails to build (`MissingField`, `-EINVAL`), and
the failure aborts the whole document build: the context builder
returns an error, never a partial context (devices built from earlier
siblings included). -/
theorem c3_device_missing_id_aborts (root : XNode)
    (h : ∃ n ∈ root.children, n.name = "device" ∧ ∀ a ∈ n.attrs, a.name ≠ "id") :
    ∃ e, iio_create_xml_context_helper root = .error e := by
  by_cases hr : root.name = "context"
  · simp only [iio_create_xml_context_helper, hr, if_true]
    exact populate_bad_device _ root h
  · exact ⟨.einval, by unfold iio_create_xml_context_helper; rw [if_neg hr]⟩

/-- Witness for C3: a context with one valid device followed by a
device lacking `id` builds to an error. -/
theorem c3_device_missing_id_aborts_witness :
    ∃ e, iio_create_xml_context_helper
        (XNode.mk "context" []
          [XNode.mk "device" [⟨"id", "iio:device0"⟩] [],
           XNode.mk "device" [⟨"name", "adc"⟩] []]) = .error e :=
  c3_device_missing_id_aborts
    (XNode.mk "context" []
      [XNode.mk "device" [⟨"id", "iio:device0"⟩] [],
       XNode.mk "device" [⟨"name", "adc"⟩] []])
    (by decide)

/-! Frame lemmas: a loop step that ignores an element can be dropped
from the iterated list. -/

theorem foldl_skip_mid {σ α : Type} (step : σ → α → σ) (a : α)
    (h : ∀ s, step s a = s) (l1 l2 : List α) (s : σ) :
    (l1 ++ a :: l2).foldl step s = (l1 ++ l2).foldl step s := by
  rw [List.foldl_append, List.foldl_append, List.foldl_cons, h]

theorem foldE_skip_mid {σ α : Type} (step : σ → α → Except Errno σ) (a : α)
    (h : ∀ s, step s a = .ok s) (l1 l2 : List α) :
    ∀ s, foldE step s (l1 ++ a :: l2) = foldE step s (l1 ++ l2) := by
  induction l1 with
  | nil =>
    intro s
    rw [List.nil_append, List.nil_append, foldE_cons, h]
  | cons x l ih =>
    intro s
    rw [List.cons_append, List.cons_append, foldE_cons, foldE_cons]
    cases step s x with
    | error e => rfl
    | ok s' => exact ih s'

theorem chn_node_attr_step_unknown (a : XAttr) (h : a.name ∉ ["name", "id", "type"]) :
    ∀ c, chn_node_attr_step c a = c := by
  simp only [List.mem_cons, List.not_mem_nil, or_false, not_or] at h
  intro c
  unfold chn_node_attr_step
  rw [if_neg h.1, if_neg h.2.1, if_neg h.2.2]

theorem dev_node_attr_step_unknown (a : XAttr) (h : a.name ∉ ["name", "label", "id"]) :
    ∀ d, dev_node_attr_step d a = d := by
  simp only [List.mem_cons, List.not_mem_nil, or_false, not_or] at h
  intro d
  unfold dev_node_attr_step
  rw [if_neg h.1, if_neg h.2.1, if_neg h.2.2]

theorem scan_elem_attr_step_unknown (a : XAttr)
    (h : a.name ∉ ["index", "format", "scale"]) :
    ∀ c, scan_elem_attr_step c a = .ok c := by
  simp only [List.mem_cons, List.not_mem_nil, or_false, not_or] at h
  intro c
  unfold scan_elem_attr_step
  rw [if_neg h.1, if_neg h.2.1, if_neg h.2.2]

theorem chn_child_step_unknown (x : XNode)
    (h : x.name ∉ ["attribute", "scan-element"]) :
    ∀ c, chn_child_step c x = .ok c := by
  simp only [List.mem_cons, List.not_mem_nil, or_false, not_or] at h
  intro c
  unfold chn_child_step
  rw [if_neg h.1, if_neg h.2]

theorem dev_child_step_unknown (x : XNode)
    (h : x.name ∉ ["channel", "attribute", "debug-attribute", "buffer-attribute"]) :
    ∀ d, dev_child_step d x = .ok d := by
  simp only [List.mem_cons, List.not_mem_nil, or_false, not_or] at h
  intro d
  unfold dev_child_step
  rw [if_neg h.1, if_neg h.2.1, if_neg h.2.2.1, if_neg h.2.2.2]

theorem ctx_child_step_unknown (x : XNode)
    (h : x.name ∉ ["context-attribute", "device"]) :
    ∀ ctx, ctx_child_step ctx x = .ok ctx := by
  simp only [List.mem_cons, List.not_mem_nil, or_false, not_or] at h
  intro ctx
  unfold ctx_child_step
  rw [if_neg h.1, if_neg h.2]

theorem ctx_hdr_step_unknown (a : XAttr)
    (h : a.name ∉ ["description", "version-major", "version-minor", "version-git"]) :
    ∀ s, ctx_hdr_step s a = s := by
  simp only [List.mem_cons, List.not_mem_nil, or_false, not_or] at h
  intro s
  unfold ctx_hdr_step
  rw [if_neg h.1, if_neg h.2.1, if_neg h.2.2.1, if_neg h.2.2.2]

theorem create_channel_unknown_attr (nm : String) (l1 l2 : List XAttr) (a : XAttr)
    (ch : List XNode) (h : a.name ∉ ["name", "id", "type"]) :
    create_channel (XNode.mk nm (l1 ++ a :: l2) ch) =
      create_channel (XNode.mk nm (l1 ++ l2) ch) := by
  unfold create_channel
  simp only [XNode.attrs, XNode.children,
    foldl_skip_mid chn_node_attr_step a (chn_node_attr_step_unknown a h)]

theorem create_channel_unknown_child (nm : String) (l : List XAttr)
    (c1 c2 : List XNode) (x : XNode) (h : x.name ∉ ["attribute", "scan-element"]) :
    create_channel (XNode.mk nm l (c1 ++ x :: c2)) =
      create_channel (XNode.mk nm l (c1 ++ c2)) := by
  unfold create_channel
  simp only [XNode.attrs, XNode.children,
    foldE_skip_mid chn_child_step x (chn_child_step_unknown x h) c1 c2]

theorem create_device_unknown_attr (nm : String) (l1 l2 : List XAttr) (a : XAttr)
    (ch : List XNode) (h : a.name ∉ ["name", "label", "id"]) :
    create_device (XNode.mk nm (l1 ++ a :: l2) ch) =
      create_device (XNode.mk nm (l1 ++ l2) ch) := by
  unfold create_device
  simp only [XNode.attrs, XNode.children,
    foldl_skip_mid dev_node_attr_step a (dev_node_attr_step_unknown a h)]

theorem create_device_unknown_child (nm : String) (l : List XAttr)
    (c1 c2 : List XNode) (x : XNode)
    (h : x.name ∉ ["channel", "attribute", "debug-attribute", "buffer-attribute"]) :
    create_device (XNode.mk nm l (c1 ++ x :: c2)) =
      create_device (XNode.mk nm l (c1 ++ c2)) := by
  unfold create_device
  simp only [XNode.attrs, XNode.children,
    foldE_skip_mid dev_child_step x (dev_child_step_unknown x h) c1 c2]

theorem setup_scan_element_unknown_attr (c : iio_channel) (nm : String)
    (l1 l2 : List XAttr) (a : XAttr) (ch : List XNode)
    (h : a.name ∉ ["index", "format", "scale"]) :
    setup_scan_element c (XNode.mk nm (l1 ++ a :: l2) ch) =
      setup_scan_element c (XNode.mk nm (l1 ++ l2) ch) := by
  unfold setup_scan_element
  simp only [XNode.attrs,
    foldE_skip_mid scan_elem_attr_step a (scan_elem_attr_step_unknown a h) l1 l2]

theorem context_unknown_attr (nm : String) (l1 l2 : List XAttr) (a : XAttr)
    (ch : List XNode)
    (h : a.name ∉ ["description", "version-major", "version-minor", "version-git"]) :
    iio_create_xml_context_helper (XNode.mk nm (l1 ++ a :: l2) ch) =
      iio_create_xml_context_helper (XNode.mk nm (l1 ++ l2) ch) := by
  unfold iio_create_xml_context_helper
  simp only [XNode.name, XNode.attrs,
    foldl_skip_mid ctx_hdr_step a (ctx_hdr_step_unknown a h)]
  by_cases hr : nm = "context"
  · simp only [hr, if_true]
    unfold iio_populate_xml_context_helper
    simp only [XNode.children]
  · simp only [hr, if_false]

theorem context_unknown_child (nm : String) (l : List XAttr)
    (c1 c2 : List XNode) (x : XNode)
    (h : x.name ∉ ["context-attribute", "device"]) :
    iio_create_xml_context_helper (XNode.mk nm l (c1 ++ x :: c2)) =
      iio_create_xml_context_helper (XNode.mk nm l (c1 ++ c2)) := by
  unfold iio_create_xml_context_helper
  simp only [XNode.name, XNode.attrs]
  by_cases hr : nm = "context"
  · simp only [hr, if_true]
    unfold iio_populate_xml_context_helper
    simp only [XNode.children,
      foldE_skip_mid ctx_child_step x (ctx_child_step_unknown x h) c1 c2]
  · simp only [hr, if_false]

/-- Claim C7: unknown child elements and unknown attributes anywhere in
the schema — on the context root, on a device, on a channel, or on a
scan-element — are accepted without error and leave the build result
exactly as if they were absent (so they alter no other parsed field). -/
theorem c7_unknown_ignored :
    (∀ (nm : String) (l1 l2 : List XAttr) (a : XAttr) (ch : List XNode),
        a.name ∉ ["name", "id", "type"] →
        create_channel (XNode.mk nm (l1 ++ a :: l2) ch) =
          create_channel (XNode.mk nm (l1 ++ l2) ch)) ∧
    (∀ (nm : String) (l : List XAttr) (c1 c2 : List XNode) (x : XNode),
        x.name ∉ ["attribute", "scan-element"] →
        create_channel (XNode.mk nm l (c1 ++ x :: c2)) =
          create_channel (XNode.mk nm l (c1 ++ c2))) ∧
    (∀ (nm : String) (l1 l2 : List XAttr) (a : XAttr) (ch : List XNode),
        a.name ∉ ["name", "label", "id"] →
        create_device (XNode.mk nm (l1 ++ a :: l2) ch) =
          create_device (XNode.mk nm (l1 ++ l2) ch)) ∧
    (∀ (nm : String) (l : List XAttr) (c1 c2 : List XNode) (x : XNode),
        x.name ∉ ["channel", "attribute", "debug-attribute", "buffer-attribute"] →
        create_device (XNode.mk nm l (c1 ++ x :: c2)) =
          create_device (XNode.mk nm l (c1 ++ c2))) ∧
    (∀ (c : iio_channel) (nm : String) (l1 l2 : List XAttr) (a : XAttr)
        (ch : List XNode),
        a.name ∉ ["index", "format", "scale"] →
        setup_scan_element c (XNode.mk nm (l1 ++ a :: l2) ch) =
          setup_scan_element c (XNode.mk nm (l1 ++ l2) ch)) ∧
    (∀ (nm : String) (l1 l2 : List XAttr) (a : XAttr) (ch : List XNode),
        a.name ∉ ["description", "version-major", "version-minor", "version-git"] →
        iio_create_xml_context_helper (XNode.mk nm (l1 ++ a :: l2) ch) =
          iio_create_xml_context_helper (XNode.mk nm (l1 ++ l2) ch)) ∧
    (∀ (nm : String) (l : List XAttr) (c1 c2 : List XNode) (x : XNode),
        x.name ∉ ["context-attribute", "device"] →
        iio_create_xml_context_helper (XNode.mk nm l (c1 ++ x :: c2)) =
          iio_create_xml_context_helper (XNode.mk nm l (c1 ++ c2))) :=
  ⟨create_channel_unknown_attr, create_channel_unknown_child,
   create_device_unknown_attr, create_device_unknown_child,
   setup_scan_element_unknown_attr, context_unknown_attr,
   context_unknown_child⟩

/-- Witness for C7 at concrete inputs: one unknown attribute or child
in each position leaves the corresponding build result unchanged. -/
theorem c7_unknown_ignored_witness :
    create_channel (XNode.mk "channel" [⟨"vendor", "1"⟩, ⟨"id", "v"⟩] []) =
      create_channel (XNode.mk "channel" [⟨"id", "v"⟩] []) ∧
    create_channel (XNode.mk "channel" [⟨"id", "v"⟩] [XNode.mk "extra" [] []]) =
      create_channel (XNode.mk "channel" [⟨"id", "v"⟩] []) ∧
    create_device (XNode.mk "device" [⟨"vendor", "1"⟩, ⟨"id", "d"⟩] []) =
      create_device (XNode.mk "device" [⟨"id", "d"⟩] []) ∧
    create_device (XNode.mk "device" [⟨"id", "d"⟩] [XNode.mk "extra" [] []]) =
      create_device (XNode.mk "device" [⟨"id", "d"⟩] []) ∧
    setup_scan_element zalloc_channel
        (XNode.mk "scan-element" [⟨"vendor", "1"⟩] []) =
      setup_scan_element zalloc_channel (XNode.mk "scan-element" [] []) ∧
    iio_create_xml_context_helper (XNode.mk "context" [⟨"vendor", "1"⟩] []) =
      iio_create_xml_context_helper (XNode.mk "context" [] []) ∧
    iio_create_xml_context_helper (XNode.mk "context" [] [XNode.mk "extra" [] []]) =
      iio_create_xml_context_helper (XNode.mk "context" [] []) :=
  ⟨c7_unknown_ignored.1 "channel" [] [⟨"id", "v"⟩] ⟨"vendor", "1"⟩ [] (by decide),
   c7_unknown_ignored.2.1 "channel" [⟨"id", "v"⟩] [] [] (XNode.mk "extra" [] [])
     (by decide),
   c7_unknown_ignored.2.2.1 "device" [] [⟨"id", "d"⟩] ⟨"vendor", "1"⟩ [] (by decide),
   c7_unknown_ignored.2.2.2.1 "device" [⟨"id", "d"⟩] [] [] (XNode.mk "extra" [] [])
     (by decide),
   c7_unknown_ignored.2.2.2.2.1 zalloc_channel "scan-element" [] [] ⟨"vendor", "1"⟩ []
     (by decide),
   c7_unknown_ignored.2.2.2.2.2.1 "context" [] [] ⟨"vendor", "1"⟩ [] (by decide),
   c7_unknown_ignored.2.2.2.2.2.2 "context" [] [] [] (XNode.mk "extra" [] [])
     (by decide)⟩

/-! Lemmas characterizing the (name, filename) attribute scan. -/

theorem chn_attr_pair_step_fst (p : Option String × Option String) (a : XAttr)
    (h : a.name ≠ "name") : (chn_attr_pair_step p a).1 = p.1 := by
  unfold chn_attr_pair_step
  rw [if_neg h]
  by_cases h2 : a.name = "filename"
  · rw [if_pos h2]
  · rw [if_neg h2]

theorem chn_attr_pair_step_snd (p : Option String × Option String) (a : XAttr)
    (h : a.name ≠ "filename") : (chn_attr_pair_step p a).2 = p.2 := by
  unfold chn_attr_pair_step
  by_cases h1 : a.name = "name"
  · rw [if_pos h1]
  · rw [if_neg h1, if_neg h]

theorem fold_pair_fst_const (l : List XAttr) (h : ∀ a ∈ l, a.name ≠ "name") :
    ∀ p, (l.foldl chn_attr_pair_step p).1 = p.1 := by
  induction l with
  | nil => intro p; rfl
  | cons a l ih =>
    intro p
    rw [List.foldl_cons, ih (fun x hx => h x (by simp [hx])),
      chn_attr_pair_step_fst p a (h a (by simp))]

theorem fold_pair_snd_const (l : List XAttr) (h : ∀ a ∈ l, a.name ≠ "filename") :
    ∀ p, (l.foldl chn_attr_pair_step p).2 = p.2 := by
  induction l with
  | nil => intro p; rfl
  | cons a l ih =>
    intro p
    rw [List.foldl_cons, ih (fun x hx => h x (by simp [hx])),
      chn_attr_pair_step_snd p a (h a (by simp))]

theorem add_attr_missing_name (chn : iio_channel) (nm : String) (l : List XAttr)
    (ch : List XNode) (h : ∀ a ∈ l, a.name ≠ "name") :
    add_attr_to_channel chn (XNode.mk nm l ch) = .error .einval := by
  unfold add_attr_to_channel
  simp only [XNode.attrs]
  have h1 : (l.foldl chn_attr_pair_step (none, none)).1 = none :=
    fold_pair_fst_const l h (none, none)
  rcases hp : l.foldl chn_attr_pair_step (none, none) with ⟨f, s⟩
  rw [hp] at h1
  obtain rfl : f = none := h1
  rfl

theorem add_attr_filename_defaults (chn : iio_channel) (nm : String)
    (l1 l2 : List XAttr) (v : String) (ch : List XNode)
    (h2 : ∀ a ∈ l2, a.name ≠ "name")
    (hfn : ∀ a ∈ l1 ++ (⟨"name", v⟩ : XAttr) :: l2, a.name ≠ "filename") :
    add_attr_to_channel chn (XNode.mk nm (l1 ++ ⟨"name", v⟩ :: l2) ch) =
      .ok { chn with attrs := chn.attrs ++ [{ name := v, filename := v }] } := by
  have hfn1 : ∀ a ∈ l1, a.name ≠ "filename" := fun a ha => hfn a (by simp [ha])
  have hfn2 : ∀ a ∈ l2, a.name ≠ "filename" := fun a ha => hfn a (by simp [ha])
  unfold add_attr_to_channel
  simp only [XNode.attrs]
  have hstep : chn_attr_pair_step (l1.foldl chn_attr_pair_step (none, none))
      ⟨"name", v⟩ = (some v, (l1.foldl chn_attr_pair_step (none, none)).2) := by
    unfold chn_attr_pair_step
    rw [if_pos rfl]
  have hfold1 :
      ((l1 ++ (⟨"name", v⟩ : XAttr) :: l2).foldl chn_attr_pair_step (none, none)).1 =
        some v := by
    rw [List.foldl_append, List.foldl_cons, fold_pair_fst_const l2 h2, hstep]
  have hfold2 :
      ((l1 ++ (⟨"name", v⟩ : XAttr) :: l2).foldl chn_attr_pair_step (none, none)).2 =
        none := by
    rw [List.foldl_append, List.foldl_cons, fold_pair_snd_const l2 hfn2, hstep]
    exact fold_pair_snd_const l1 hfn1 (none, none)
  rcases hp : (l1 ++ (⟨"name", v⟩ : XAttr) :: l2).foldl chn_attr_pair_step (none, none)
    with ⟨f, s⟩
  rw [hp] at hfold1 hfold2
  obtain rfl : f = some v := hfold1
  obtain rfl : s = none := hfold2
  rfl

/-- Claim C8, counterexample: the claim says every successfully built
channel attribute has non-empty name and filename, but the source only
checks presence, not emptiness: a `name` attribute whose text is empty
builds successfully with empty name and filename. -/
theorem c8_empty_name_accepted :
    add_attr_to_channel zalloc_channel (XNode.mk "attribute" [⟨"name", ""⟩] []) =
      .ok { zalloc_channel with attrs := [{ name := "", filename := "" }] } ∧
    ("" : String).length = 0 :=
  ⟨rfl, rfl⟩

/-- Claim C8, amended: a channel attribute element with no `name`
attribute fails with `MissingField` (`-EINVAL`); when `name` is present
(text `v`) and `filename` is absent, the built attribute stores `v` as
both name and filename — so both fields are always present and equal to
the supplied name text, and they are non-empty exactly when that text
is non-empty (emptiness itself is not checked). -/
theorem c8_attr_amended :
    (∀ (chn : iio_channel) (nm : String) (l : List XAttr) (ch : List XNode),
        (∀ a ∈ l, a.name ≠ "name") →
        add_attr_to_channel chn (XNode.mk nm l ch) = .error .einval) ∧
    (∀ (chn : iio_channel) (nm : String) (l1 l2 : List XAttr) (v : String)
        (ch : List XNode),
        (∀ a ∈ l2, a.name ≠ "name") →
        (∀ a ∈ l1 ++ (⟨"name", v⟩ : XAttr) :: l2, a.name ≠ "filename") →
        add_attr_to_channel chn (XNode.mk nm (l1 ++ ⟨"name", v⟩ :: l2) ch) =
          .ok { chn with attrs := chn.attrs ++ [{ name := v, filename := v }] }) :=
  ⟨add_attr_missing_name, add_attr_filename_defaults⟩

/-- Witness for C8's amended theorem at concrete inputs. -/
theorem c8_attr_amended_witness :
    add_attr_to_channel zalloc_channel (XNode.mk "attribute" [⟨"other", "x"⟩] []) =
      .error .einval ∧
    add_attr_to_channel zalloc_channel (XNode.mk "attribute" [⟨"name", "raw"⟩] []) =
      .ok { zalloc_channel with attrs := [{ name := "raw", filename := "raw" }] } :=
  ⟨c8_attr_amended.1 zalloc_channel "attribute" [⟨"other", "x"⟩] [] (by decide),
   c8_attr_amended.2 zalloc_channel "attribute" [] [] "raw" [] (by decide) (by decide)⟩

/-! List and bit lemmas for the channels mask. -/

theorem getD_set_self (l : List Nat) (i a : Nat) (h : i < l.length) :
    (l.set i a).getD i 0 = a := by
  induction l generalizing i with
  | nil => simp at h
  | cons x xs ih =>
    cases i with
    | zero => rfl
    | succ k => exact ih k (Nat.lt_of_succ_lt_succ h)

theorem getD_set_ne (l : List Nat) (i j a : Nat) (h : i ≠ j) :
    (l.set i a).getD j 0 = l.getD j 0 := by
  induction l generalizing i j with
  | nil => rfl
  | cons x xs ih =>
    cases i with
    | zero =>
      cases j with
      | zero => exact absurd rfl h
      | succ k => rfl
    | succ k =>
      cases j with
      | zero => rfl
      | succ r => exact ih k r (fun hh => h (by rw [hh]))

theorem getD_replicate_zero (k : Nat) :
    ∀ i, (List.replicate k (0 : Nat)).getD i 0 = 0 := by
  induction k with
  | zero => intro i; rfl
  | succ n ih =>
    intro i
    cases i with
    | zero => rfl
    | succ r => exact ih r

theorem land_two_pow_ne (w k : Nat) : ((w &&& 2 ^ k) != 0) = w.testBit k := by
  rw [Nat.and_two_pow]
  cases h : w.testBit k
  · simp
  · simp

/-- Claim C9: on any channels mask, setting bit `i` (in range) makes
`TestBit i` true; every bit of a freshly created zero-initialized mask
tests false; `SetBit i` and `ClearBit i` leave every other bit `j ≠ i`
unchanged; and clearing bit `i` makes `TestBit i` false. -/
theorem c9_mask_bit_ops (m : iio_channels_mask) (i j n : Nat)
    (hi : i < 32 * m.mask.length) (hj : j < 32 * m.mask.length) (hij : j ≠ i) :
    iio_channels_mask_test_bit (iio_channels_mask_set_bit m i) i = true ∧
    iio_channels_mask_test_bit (iio_create_channels_mask n) j = false ∧
    iio_channels_mask_test_bit (iio_channels_mask_set_bit m i) j =
      iio_channels_mask_test_bit m j ∧
    iio_channels_mask_test_bit (iio_channels_mask_clear_bit m i) j =
      iio_channels_mask_test_bit m j ∧
    iio_channels_mask_test_bit (iio_channels_mask_clear_bit m i) i = false := by
  have hiw : i / 32 < m.mask.length := by omega
  have h32i : i % 32 < 32 := Nat.mod_lt _ (by decide)
  have h32j : j % 32 < 32 := Nat.mod_lt _ (by decide)
  refine ⟨?_, ?_, ?_, ?_, ?_⟩
  · show ((m.mask.set (i / 32) (m.mask.getD (i / 32) 0 ||| 2 ^ (i % 32))).getD
        (i / 32) 0 &&& 2 ^ (i % 32) != 0) = true
    rw [getD_set_self _ _ _ hiw, land_two_pow_ne, Nat.testBit_or,
      Nat.testBit_two_pow_self, Bool.or_true]
  · show ((List.replicate ((n + 31) / 32) 0).getD (j / 32) 0 &&&
        2 ^ (j % 32) != 0) = false
    rw [getD_replicate_zero, Nat.zero_and]
    rfl
  · show ((m.mask.set (i / 32) (m.mask.getD (i / 32) 0 ||| 2 ^ (i % 32))).getD
        (j / 32) 0 &&& 2 ^ (j % 32) != 0) =
      (m.mask.getD (j / 32) 0 &&& 2 ^ (j % 32) != 0)
    by_cases hw : i / 32 = j / 32
    · have hmod : i % 32 ≠ j % 32 := by omega
      rw [← hw, getD_set_self _ _ _ hiw, land_two_pow_ne, land_two_pow_ne,
        Nat.testBit_or, Nat.testBit_two_pow_of_ne hmod, Bool.or_false]
    · rw [getD_set_ne _ _ _ _ hw]
  · show ((m.mask.set (i / 32)
        (m.mask.getD (i / 32) 0 &&& (2 ^ 32 - 1 ^^^ 2 ^ (i % 32)))).getD
        (j / 32) 0 &&& 2 ^ (j % 32) != 0) =
      (m.mask.getD (j / 32) 0 &&& 2 ^ (j % 32) != 0)
    by_cases hw : i / 32 = j / 32
    · have hmod : i % 32 ≠ j % 32 := by omega
      rw [← hw, getD_set_self _ _ _ hiw, land_two_pow_ne, land_two_pow_ne,
        Nat.testBit_and, Nat.testBit_xor, Nat.testBit_two_pow_sub_one,
        Nat.testBit_two_pow_of_ne hmod]
      simp [h32j]
    · rw [getD_set_ne _ _ _ _ hw]
  · show ((m.mask.set (i / 32)
        (m.mask.getD (i / 32) 0 &&& (2 ^ 32 - 1 ^^^ 2 ^ (i % 32)))).getD
        (i / 32) 0 &&& 2 ^ (i % 32) != 0) = false
    rw [getD_set_self _ _ _ hiw, land_two_pow_ne, Nat.testBit_and,
      Nat.testBit_xor, Nat.testBit_two_pow_sub_one, Nat.testBit_two_pow_self]
    simp [h32i]

/-- Witness for C9 on a 70-bit mask with bits 5 and 37. -/
theorem c9_mask_bit_ops_witness :
    iio_channels_mask_test_bit
        (iio_channels_mask_set_bit (iio_create_channels_mask 70) 5) 5 = true ∧
    iio_channels_mask_test_bit (iio_create_channels_mask 70) 37 = false ∧
    iio_channels_mask_test_bit
        (iio_channels_mask_set_bit (iio_create_channels_mask 70) 5) 37 =
      iio_channels_mask_test_bit (iio_create_channels_mask 70) 37 ∧
    iio_channels_mask_test_bit
        (iio_channels_mask_clear_bit (iio_create_channels_mask 70) 5) 37 =
      iio_channels_mask_test_bit (iio_create_channels_mask 70) 37 ∧
    iio_channels_mask_test_bit
        (iio_channels_mask_clear_bit (iio_create_channels_mask 70) 5) 5 = false :=
  c9_mask_bit_ops (iio_create_channels_mask 70) 5 37 70
    (by decide) (by decide) (by decide)

/-! Lemmas for the version-git gating of the version numbers. -/

theorem ctx_hdr_step_git (s : CtxHdr) (a : XAttr) (h : a.name ≠ "version-git") :
    (ctx_hdr_step s a).git_tag = s.git_tag := by
  unfold ctx_hdr_step
  by_cases h1 : a.name = "description"
  · rw [if_pos h1]
  · rw [if_neg h1]
    by_cases h2 : a.name = "version-major"
    · rw [if_pos h2]
    · rw [if_neg h2]
      by_cases h3 : a.name = "version-minor"
      · rw [if_pos h3]
      · rw [if_neg h3, if_neg h]

theorem ctx_hdr_fold_git (l : List XAttr) (h : ∀ a ∈ l, a.name ≠ "version-git") :
    ∀ s, (l.foldl ctx_hdr_step s).git_tag = s.git_tag := by
  induction l with
  | nil => intro s; rfl
  | cons a l ih =>
    intro s
    rw [List.foldl_cons, ih (fun x hx => h x (by simp [hx])),
      ctx_hdr_step_git s a (h a (by simp))]

theorem ctx_child_step_meta {ctx ctx' : iio_context} {n : XNode}
    (h : ctx_child_step ctx n = .ok ctx') :
    ctx'.major = ctx.major ∧ ctx'.minor = ctx.minor ∧ ctx'.git_tag = ctx.git_tag := by
  unfold ctx_child_step at h
  by_cases h1 : n.name = "context-attribute"
  · rw [if_pos h1] at h
    unfold parse_context_attr at h
    rcases hp : n.attrs.foldl ctx_attr_pair_step (none, none) with ⟨nm?, v?⟩
    rw [hp] at h
    cases nm? with
    | none => cases h
    | some nm =>
      cases v? with
      | none => cases h
      | some v =>
        cases h
        unfold iio_context_add_attr
        split_ifs <;> exact ⟨rfl, rfl, rfl⟩
  · rw [if_neg h1] at h
    by_cases h2 : n.name = "device"
    · rw [if_pos h2] at h
      cases hd : create_device n with
      | error e => rw [hd] at h; cases h
      | ok dev => rw [hd] at h; cases h; exact ⟨rfl, rfl, rfl⟩
    · rw [if_neg h2] at h; cases h; exact ⟨rfl, rfl, rfl⟩

theorem foldE_ctx_meta (l : List XNode) :
    ∀ ctx ctx' : iio_context, foldE ctx_child_step ctx l = .ok ctx' →
      ctx'.major = ctx.major ∧ ctx'.minor = ctx.minor ∧
        ctx'.git_tag = ctx.git_tag := by
  induction l with
  | nil => intro ctx ctx' h; cases h; exact ⟨rfl, rfl, rfl⟩
  | cons x l ih =>
    intro ctx ctx' h
    rw [foldE_cons] at h
    cases hs : ctx_child_step ctx x with
    | error e => rw [hs] at h; cases h
    | ok ctx1 =>
      rw [hs] at h
      obtain ⟨a1, b1, c1⟩ := ctx_child_step_meta hs
      obtain ⟨a2, b2, c2⟩ := ih ctx1 ctx' h
      exact ⟨a2.trans a1, b2.trans b1, c2.trans c1⟩

theorem populate_meta {ctx ctx' : iio_context} {root : XNode}
    (h : iio_populate_xml_context_helper ctx root = .ok ctx') :
    ctx'.major = ctx.major ∧ ctx'.minor = ctx.minor ∧
      ctx'.git_tag = ctx.git_tag := by
  unfold iio_populate_xml_context_helper at h
  cases hf : foldE ctx_child_step ctx root.children with
  | error e => rw [hf] at h; cases h
  | ok c2 =>
    rw [hf] at h
    cases h
    exact foldE_ctx_meta root.children ctx _ hf

/-- Claim C10: the parsed `version-major`/`version-minor` root
attributes are copied into the context only under `if (git_tag)`: a
document without a `version-git` attribute builds a context with
major = 0, minor = 0 and no git tag, even when valid version numbers
were present and parsed. -/
theorem c10_version_requires_git (root : XNode)
    (h : ∀ a ∈ root.attrs, a.name ≠ "version-git")
    (ctx : iio_context) (hok : iio_create_xml_context_helper root = .ok ctx) :
    ctx.major = 0 ∧ ctx.minor = 0 ∧ ctx.git_tag = none := by
  by_cases hr : root.name = "context"
  · simp only [iio_create_xml_context_helper, hr, if_true] at hok
    rw [ctx_hdr_fold_git root.attrs h] at hok
    exact populate_meta hok
  · simp only [iio_create_xml_context_helper, hr, if_false] at hok
    cases hok

/-- Witness for C10: a context carrying only version numbers (no
`version-git`) builds with major 0, minor 0 and no git tag. -/
theorem c10_version_requires_git_witness :
    iio_create_xml_context_helper
        (XNode.mk "context" [⟨"version-major", "3"⟩, ⟨"version-minor", "14"⟩] []) =
      .ok { description := none, major := 0, minor := 0, git_tag := none,
            attrs := [], devices := [] } ∧
    ({ description := none, major := 0, minor := 0, git_tag := none,
       attrs := [], devices := [] } : iio_context).major = 0 ∧
    ({ description := none, major := 0, minor := 0, git_tag := none,
       attrs := [], devices := [] } : iio_context).git_tag = none :=
  have h := c10_version_requires_git
    (XNode.mk "context" [⟨"version-major", "3"⟩, ⟨"version-minor", "14"⟩] [])
    (by decide)
    { description := none, major := 0, minor := 0, git_tag := none,
      attrs := [], devices := [] } rfl
  ⟨rfl, h.1, h.2.2⟩

end LibiioXml
